import Mathlib

/-!
Shallow embedding of `cpp/cli_main.cc` (the mlc-llm interactive CLI chat):
device resolution, convention-based artifact search, UTF-8 segmentation,
incremental terminal redraw, and the REPL command dispatch.

Modelling conventions:
* the filesystem is an explicit record of the paths that exist and the
  subset that name regular files;
* `std::filesystem::canonical` is modelled as the identity (no symlinks,
  paths are compared verbatim);
* `LOG(FATAL)` is modelled as `Option.none`, `exit(1)` as `Except.error 1`;
* byte strings are lists of natural numbers below 256;
* the inference engine is external: its role names are modelled as a pure
  function of the artifact pair it was last initialized with.
-/

/-- Backend kinds of `DLDevice` that `GetDevice` in `cli_main.cc` can name. -/
inductive DLDeviceType where
  | kDLCUDA
  | kDLMetal
  | kDLVulkan
  | kDLOpenCL
  | kDLCPU
deriving DecidableEq, Repr

/-- Device descriptor: backend kind plus ordinal (`DLDevice` in the source). -/
structure DLDevice where
  device_type : DLDeviceType
  device_id : Int
deriving DecidableEq, Repr

/-- Embedding of `GetDevice` (cli_main.cc lines 51-58).  `LOG(FATAL)` is
modelled as `none`; the `return DLDevice{kDLCPU, 0}` after the fatal log is
dead code and never executes. -/
def GetDevice (device_name : String) (device_id : Int) : Option DLDevice :=
  if device_name = "cuda" then some ⟨DLDeviceType.kDLCUDA, device_id⟩
  else if device_name = "metal" then some ⟨DLDeviceType.kDLMetal, device_id⟩
  else if device_name = "vulkan" then some ⟨DLDeviceType.kDLVulkan, device_id⟩
  else if device_name = "opencl" then some ⟨DLDeviceType.kDLOpenCL, device_id⟩
  else none

/-- Filesystem model: the paths that exist and the subset that name regular
files, as explicit lists of path strings. -/
structure FS where
  present : List String
  regular : List String
deriving DecidableEq

/-- Innermost body of the `FindFile` triple loop (cli_main.cc lines 74-80):
probe one path with `exists`, canonicalize (modelled as the identity), then
keep it only when it names a regular file; otherwise fall through to the
next probe. -/
def probeOne (fs : FS) (path : String) : Option String :=
  if path ∈ fs.present then
    if path ∈ fs.regular then some path else none
  else none

/-- Suffix loop of `FindFile`: innermost of the three nested loops. -/
def findInSuffixes (fs : FS) (dir name : String) : List String → Option String
  | [] => none
  | suffix :: suffixes =>
    match probeOne fs (dir ++ "/" ++ name ++ suffix) with
    | some p => some p
    | none => findInSuffixes fs dir name suffixes

/-- Name loop of `FindFile`: middle of the three nested loops. -/
def findInNames (fs : FS) (dir : String) : List String → List String → Option String
  | [], _ => none
  | name :: names, suffixes =>
    match findInSuffixes fs dir name suffixes with
    | some p => some p
    | none => findInNames fs dir names suffixes

/-- Embedding of `FindFile` (cli_main.cc lines 67-85): iterate search
directories, base names and suffixes in nested order and return the first
probed path that exists and names a regular file. -/
def FindFile (fs : FS) : List String → List String → List String → Option String
  | [], _, _ => none
  | dir :: dirs, names, suffixes =>
    match findInNames fs dir names suffixes with
    | some p => some p
    | none => FindFile fs dirs names suffixes

/-- Boolean test matching the success condition of one `FindFile` probe: the
path exists and names a regular file. -/
def probeHit (fs : FS) (p : String) : Bool :=
  decide (p ∈ fs.present) && decide (p ∈ fs.regular)

/-- Probe order stated by the specification for `FindFile`: the Cartesian
product of directories, base names and suffixes, directories outermost and
suffixes innermost. -/
def specProbeOrder (search_paths names suffixes : List String) : List String :=
  search_paths.flatMap fun dir =>
    names.flatMap fun name =>
      suffixes.map fun suffix => dir ++ "/" ++ name ++ suffix

/-- Embedding of `std::filesystem::path::parent_path` for slash-separated
path strings: drop the final component and its separating slash. -/
def parentPath (p : String) : String :=
  String.mk (((p.data.reverse.dropWhile fun c => c != '/').drop 1).reverse)

/-- Final path component of a slash-separated path string: the suffix after
the last slash (the whole string when there is no slash). -/
def lastComponent (p : String) : String :=
  String.mk ((p.data.reverse.takeWhile fun c => c != '/').reverse)

/-- Embedding of the source test
`model_path.compare(model_path.length() - 7, 7, "/params") == 0`
(cli_main.cc line 320) for strings of length at least seven: the last seven
characters are `/params`. -/
def endsWithParams (mp : String) : Prop :=
  mp.data.reverse.take 7 = ['s', 'm', 'a', 'r', 'a', 'p', '/']

instance (mp : String) : Decidable (endsWithParams mp) :=
  inferInstanceAs (Decidable (mp.data.reverse.take 7 = ['s', 'm', 'a', 'r', 'a', 'p', '/']))

/-- Configuration captured by the `f_search_model_path` closure
(cli_main.cc lines 291-293): artifact root, device name and architecture
suffix, together with the platform library suffix list supplied by
`GetLibSuffixes`. -/
structure LocatorConfig where
  artifact_path : String
  device_name : String
  arch_suffix : String
  lib_suffixes : List String
deriving DecidableEq

/-- Result of a successful `f_search_model_path`.  The source returns the
pair `(lib_path, model_path)` and computes the config path and the params
directory along the way; all four locations are recorded here so theorems
can speak about the full artifact set. -/
structure ResolvedModel where
  config_path : String
  lib_path : String
  model_path : String
  params_dir : String
deriving DecidableEq

/-- Config-search loop of `f_search_model_path` (cli_main.cc lines
297-307): the first candidate identifier whose `params` subdirectory or
`prebuilt` directory holds `mlc-chat-config.json` wins and becomes the
selected identifier. -/
def configSearchLoop (cfg : LocatorConfig) (fs : FS) : List String → Option (String × String)
  | [] => none
  | cand :: rest =>
    match FindFile fs
        [cfg.artifact_path ++ "/" ++ cand ++ "/params",
         cfg.artifact_path ++ "/prebuilt/" ++ cand]
        ["mlc-chat-config"] [".json"] with
    | some p => some (p, cand)
    | none => configSearchLoop cfg fs rest

/-- Embedding of the closure `f_search_model_path` (cli_main.cc lines
291-343).  Every `exit(1)` in the source is modelled as `Except.error 1`.
When the model path is shorter than `/params`, `std::string::compare`
throws `std::out_of_range`, which no handler catches (main catches only
`std::runtime_error`), so the process terminates abnormally; that is
modelled as `Except.error 134`. -/
def f_search_model_path (cfg : LocatorConfig) (fs : FS)
    (local_id_candidates : List String) : Except Nat ResolvedModel :=
  match configSearchLoop cfg fs local_id_candidates with
  | none => Except.error 1
  | some (config_path, local_id) =>
    let model_path := parentPath config_path
    let lib_name := local_id ++ "-" ++ cfg.device_name
    if 7 ≤ model_path.length then
      let lib_dir_path :=
        if endsWithParams model_path then parentPath model_path
        else parentPath model_path ++ "/lib"
      match FindFile fs [lib_dir_path] [lib_name, lib_name ++ cfg.arch_suffix]
          cfg.lib_suffixes with
      | none => Except.error 1
      | some lib_path =>
        match FindFile fs [model_path] ["ndarray-cache"] [".json"] with
        | none => Except.error 1
        | some params_json =>
          Except.ok ⟨config_path, lib_path, model_path, parentPath params_json⟩
    else Except.error 134

/-- Library search directory stated by the specification (and by claim C8):
the model path's parent when the model path's final component is literally
`params`, otherwise the model path's parent with `/lib` appended. -/
def specLibDir (mp : String) : String :=
  if lastComponent mp = "params" then parentPath mp
  else parentPath mp ++ "/lib"

/-- Embedding of `CountUTF8` (cli_main.cc lines 109-132) on byte lists.
The branch conditions mirror the source exactly, including its loose bound
checks: the three-byte branch tests `pos + 1 < s.size()` yet reads
`s[pos + 2]`, and the four-byte branch tests `pos + 2 < s.size()` yet reads
`s[pos + 3]`; `std::string::operator[]` at index `size()` returns the null
terminator, modelled here by `List.getD` with default 0.  `LOG(FATAL)` on
an unrecognized lead byte is modelled as `none`. -/
def CountUTF8 : List Nat → Option (List (List Nat))
  | [] => some []
  | b0 :: rest =>
    if b0 &&& 0x80 = 0x00 then
      (CountUTF8 rest).map fun cs => [b0] :: cs
    else if 1 ≤ rest.length ∧ b0 &&& 0xE0 = 0xC0 ∧ rest.getD 0 0 &&& 0xC0 = 0x80 then
      (CountUTF8 (rest.drop 1)).map fun cs => (b0 :: rest.take 1) :: cs
    else if 1 ≤ rest.length ∧ b0 &&& 0xF0 = 0xE0 ∧ rest.getD 0 0 &&& 0xC0 = 0x80 ∧
        rest.getD 1 0 &&& 0xC0 = 0x80 then
      (CountUTF8 (rest.drop 2)).map fun cs => (b0 :: rest.take 2) :: cs
    else if 2 ≤ rest.length ∧ b0 &&& 0xF8 = 0xF0 ∧ rest.getD 0 0 &&& 0xC0 = 0x80 ∧
        rest.getD 1 0 &&& 0xC0 = 0x80 ∧ rest.getD 2 0 &&& 0xC0 = 0x80 then
      (CountUTF8 (rest.drop 3)).map fun cs => (b0 :: rest.take 3) :: cs
    else none
termination_by s => s.length
decreasing_by
  all_goals simp [List.length_drop]
  all_goals omega

/-- Validity of one UTF-8 cluster in the shape `CountUTF8` recognizes: a
lead byte of the matching class followed by the matching number of
continuation bytes, all below 256. -/
def validCluster : List Nat → Prop
  | [b0] => b0 < 256 ∧ b0 &&& 0x80 = 0x00
  | [b0, b1] => b0 < 256 ∧ b1 < 256 ∧ b0 &&& 0xE0 = 0xC0 ∧ b1 &&& 0xC0 = 0x80
  | [b0, b1, b2] => b0 < 256 ∧ b1 < 256 ∧ b2 < 256 ∧ b0 &&& 0xF0 = 0xE0 ∧
      b1 &&& 0xC0 = 0x80 ∧ b2 &&& 0xC0 = 0x80
  | [b0, b1, b2, b3] => b0 < 256 ∧ b1 < 256 ∧ b2 < 256 ∧ b3 < 256 ∧
      b0 &&& 0xF8 = 0xF0 ∧ b1 &&& 0xC0 = 0x80 ∧ b2 &&& 0xC0 = 0x80 ∧ b3 &&& 0xC0 = 0x80
  | _ => False

/-- Byte strings that are concatenations of well-formed one- to four-byte
UTF-8 clusters. -/
inductive WellFormedUTF8 : List Nat → Prop where
  | nil : WellFormedUTF8 []
  | cons {c rest : List Nat} :
      validCluster c → WellFormedUTF8 rest → WellFormedUTF8 (c ++ rest)

/-- UTF-8 lead-byte class: the byte length of the cluster led by `b`
(0 for a byte that is not a valid lead byte). -/
def leadClass (b : Nat) : Nat :=
  if b &&& 0x80 = 0x00 then 1
  else if b &&& 0xE0 = 0xC0 then 2
  else if b &&& 0xF0 = 0xE0 then 3
  else if b &&& 0xF8 = 0xF0 then 4
  else 0

/-- Scan for the length of the common leading run of the previously printed
and the current cluster sequences (cli_main.cc lines 223-228: loop to the
first differing index, stopping at the shorter length). -/
def commonPrefixLen : List String → List String → Nat
  | a :: as, b :: bs => if a = b then commonPrefixLen as bs + 1 else 0
  | _, _ => 0

/-- One terminal action of the redraw step: a backspace-space-backspace
erase of one cluster, or printing one cluster. -/
inductive RAction where
  | erase
  | print (c : String)
deriving DecidableEq

/-- Redraw step of the generation loop (cli_main.cc lines 219-235): emit
one erase per cluster of the previous sequence beyond the common leading
run, then print the current sequence's clusters beyond that run, in order. -/
def redrawStep (printed cur : List String) : List RAction :=
  List.replicate (printed.length - commonPrefixLen printed cur) RAction.erase ++
    (cur.drop (commonPrefixLen printed cur)).map RAction.print

/-- Test for an erase action. -/
def isEraseA : RAction → Bool
  | RAction.erase => true
  | RAction.print _ => false

/-- Clusters printed by an action list, in order. -/
def printsOf (acts : List RAction) : List String :=
  acts.filterMap fun a =>
    match a with
    | RAction.erase => none
    | RAction.print c => some c

/-- Whitespace as classified by default-locale `std::istringstream`
extraction. -/
def cppIsSpace (c : Char) : Bool :=
  c == ' ' || c == '\t' || c == '\n' || c == '\x0B' || c == '\x0C' || c == '\r'

/-- Tokenizer matching repeated `operator>>` extraction on an
`istringstream`: maximal runs of non-whitespace characters, in order.  The
second argument accumulates the current token reversed. -/
def tokensAux : List Char → List Char → List String
  | [], acc => if acc = [] then [] else [String.mk acc.reverse]
  | c :: cs, acc =>
    if cppIsSpace c then
      if acc = [] then tokensAux cs []
      else String.mk acc.reverse :: tokensAux cs []
    else tokensAux cs (c :: acc)

/-- All whitespace-separated tokens of an input line. -/
def cppTokens (s : String) : List String := tokensAux s.data []

/-- Value of `local_id` after `is >> reload_prompt >> local_id`
(cli_main.cc lines 179-182): the line's second token, or the empty string
when there is none. -/
def secondToken (s : String) : String :=
  match cppTokens s with
  | _ :: t :: _ => t
  | _ => ""

/-- Embedding of `s.substr(0, n)` as used by the command-dispatch chain's
prefix comparisons. -/
def substrTo (s : String) (n : Nat) : String := String.mk (s.data.take n)

/-- Commands of the REPL dispatch chain. -/
inductive Command where
  | reset
  | reload (local_id : String)
  | exitCmd
  | stats
  | help
  | prompt (text : String)
deriving DecidableEq

/-- Command classification: the prefix-comparison chain of the REPL
(cli_main.cc lines 173-207) in source order with first match winning; a
line matching no special prefix becomes a generation prompt carrying the
full line. -/
def classify (inp : String) : Command :=
  if substrTo inp 6 = "/reset" then Command.reset
  else if substrTo inp 7 = "/reload" then Command.reload (secondToken inp)
  else if substrTo inp 5 = "/exit" then Command.exitCmd
  else if substrTo inp 6 = "/stats" then Command.stats
  else if substrTo inp 5 = "/help" then Command.help
  else Command.prompt inp

/-- Session state tracked by one REPL iteration of `Chat` (cli_main.cc
lines 153-244): the loaded library (named by its path), the model path,
the two role names, and the artifact pair the engine was last initialized
with. -/
structure ChatState where
  executable : String
  model_path : String
  role0 : String
  role1 : String
  engine_loaded : String × String
deriving DecidableEq

/-- Outcome of one REPL iteration: continue with a new state, terminate the
whole process with an exit code (the locator's `exit(1)`), or leave the
loop normally (`/exit`). -/
inductive StepResult where
  | next (s : ChatState)
  | exitProcess (code : Nat)
  | breakLoop (s : ChatState)
deriving DecidableEq

/-- One iteration of the `Chat` REPL loop on input line `inp` (cli_main.cc
lines 168-243), restricted to the state tracked by `ChatState`.  The
engine's role names are modelled by `roles`, a pure function of the
artifact pair the engine is initialized with.  `/reset`, `/stats`, `/help`
and a generation prompt leave the tracked state unchanged; `/reload` with
no identifier re-initializes the engine with the current artifacts without
touching the role names; `/reload <id>` re-resolves, reloads, and then
refreshes both role names from the engine. -/
def chatStep (cfg : LocatorConfig) (fs : FS) (roles : String → String → String × String)
    (s : ChatState) (inp : String) : StepResult :=
  match classify inp with
  | Command.reset => StepResult.next s
  | Command.reload local_id =>
    if local_id = "" then
      StepResult.next { s with engine_loaded := (s.executable, s.model_path) }
    else
      match f_search_model_path cfg fs [local_id] with
      | Except.error code => StepResult.exitProcess code
      | Except.ok r =>
        StepResult.next
          ⟨r.lib_path, r.model_path,
           (roles r.lib_path r.model_path).1, (roles r.lib_path r.model_path).2,
           (r.lib_path, r.model_path)⟩
  | Command.exitCmd => StepResult.breakLoop s
  | Command.stats => StepResult.next s
  | Command.help => StepResult.next s
  | Command.prompt _ => StepResult.next s

/-- Locator configuration of the concrete scenarios below: artifact root
`dist`, device `cuda`, x86-64 architecture suffix, Linux library suffix
list from `GetLibSuffixes`. -/
def cfgC2 : LocatorConfig := ⟨"dist", "cuda", "_x86_64", [".so"]⟩

/-- Filesystem of the C2 claim: the config and the parameter cache under
`dist/foo-q4f16_0/params`, and the library under `dist/foo-q4f16_0/lib`. -/
def fsC2 : FS :=
  ⟨["dist/foo-q4f16_0/params/mlc-chat-config.json",
    "dist/foo-q4f16_0/params/ndarray-cache.json",
    "dist/foo-q4f16_0/lib/foo-q4f16_0-cuda.so"],
   ["dist/foo-q4f16_0/params/mlc-chat-config.json",
    "dist/foo-q4f16_0/params/ndarray-cache.json",
    "dist/foo-q4f16_0/lib/foo-q4f16_0-cuda.so"]⟩

/-- Filesystem with the library where the code actually searches in the
C2 scenario: directly inside `dist/foo-q4f16_0`, the parent of the params
directory. -/
def fsC2Moved : FS :=
  ⟨["dist/foo-q4f16_0/params/mlc-chat-config.json",
    "dist/foo-q4f16_0/params/ndarray-cache.json",
    "dist/foo-q4f16_0/foo-q4f16_0-cuda.so"],
   ["dist/foo-q4f16_0/params/mlc-chat-config.json",
    "dist/foo-q4f16_0/params/ndarray-cache.json",
    "dist/foo-q4f16_0/foo-q4f16_0-cuda.so"]⟩

/-- Empty filesystem: no artifact resolves. -/
def fsEmpty : FS := ⟨[], []⟩

/-- Complete artifact layout for identifier `bar-q4f16_0`, used by the
reload scenarios. -/
def fsBar : FS :=
  ⟨["dist/bar-q4f16_0/params/mlc-chat-config.json",
    "dist/bar-q4f16_0/params/ndarray-cache.json",
    "dist/bar-q4f16_0/bar-q4f16_0-cuda.so"],
   ["dist/bar-q4f16_0/params/mlc-chat-config.json",
    "dist/bar-q4f16_0/params/ndarray-cache.json",
    "dist/bar-q4f16_0/bar-q4f16_0-cuda.so"]⟩

/-- Engine model whose role names are the constants `A` and `B` regardless
of the loaded artifacts. -/
def rolesAB : String → String → String × String := fun _ _ => ("A", "B")

/-- Session state used by the concrete REPL scenarios: artifacts from
startup, role names different from what `rolesAB` would report. -/
def chatS0 : ChatState :=
  ⟨"lib0.so", "dist/m0/params", "X", "Y", ("lib0.so", "dist/m0/params")⟩

set_option maxRecDepth 8192 in
/-- Decidable facts about UTF-8 lead-byte masks: a lead byte of one class
matches no earlier branch of the `CountUTF8` chain. -/
theorem leadMasks : ∀ b < 256,
    (b &&& 0xE0 = 0xC0 → ¬ b &&& 0x80 = 0x00) ∧
    (b &&& 0xF0 = 0xE0 → ¬ b &&& 0x80 = 0x00 ∧ ¬ b &&& 0xE0 = 0xC0) ∧
    (b &&& 0xF8 = 0xF0 → ¬ b &&& 0x80 = 0x00 ∧ ¬ b &&& 0xE0 = 0xC0 ∧ ¬ b &&& 0xF0 = 0xE0) := by
  decide

/-- One-byte step of `CountUTF8`. -/
theorem countUTF8_cons1 (b0 : Nat) (rest : List Nat) (hm : b0 &&& 0x80 = 0x00) :
    CountUTF8 (b0 :: rest) = (CountUTF8 rest).map fun cs => [b0] :: cs := by
  rw [CountUTF8, if_pos hm]

/-- Two-byte step of `CountUTF8`. -/
theorem countUTF8_cons2 (b0 b1 : Nat) (rest : List Nat) (hb0 : b0 < 256)
    (hm : b0 &&& 0xE0 = 0xC0) (hc1 : b1 &&& 0xC0 = 0x80) :
    CountUTF8 (b0 :: b1 :: rest) = (CountUTF8 rest).map fun cs => [b0, b1] :: cs := by
  rw [CountUTF8, if_neg ((leadMasks b0 hb0).1 hm), if_pos ⟨by simp, hm, hc1⟩]
  rfl

/-- Three-byte step of `CountUTF8`. -/
theorem countUTF8_cons3 (b0 b1 b2 : Nat) (rest : List Nat) (hb0 : b0 < 256)
    (hm : b0 &&& 0xF0 = 0xE0) (hc1 : b1 &&& 0xC0 = 0x80) (hc2 : b2 &&& 0xC0 = 0x80) :
    CountUTF8 (b0 :: b1 :: b2 :: rest) = (CountUTF8 rest).map fun cs => [b0, b1, b2] :: cs := by
  have h := (leadMasks b0 hb0).2.1 hm
  rw [CountUTF8, if_neg h.1, if_neg fun hand => h.2 hand.2.1, if_pos ⟨by simp, hm, hc1, hc2⟩]
  rfl

/-- Four-byte step of `CountUTF8`. -/
theorem countUTF8_cons4 (b0 b1 b2 b3 : Nat) (rest : List Nat) (hb0 : b0 < 256)
    (hm : b0 &&& 0xF8 = 0xF0) (hc1 : b1 &&& 0xC0 = 0x80) (hc2 : b2 &&& 0xC0 = 0x80)
    (hc3 : b3 &&& 0xC0 = 0x80) :
    CountUTF8 (b0 :: b1 :: b2 :: b3 :: rest) =
      (CountUTF8 rest).map fun cs => [b0, b1, b2, b3] :: cs := by
  have h := (leadMasks b0 hb0).2.2 hm
  rw [CountUTF8, if_neg h.1, if_neg fun hand => h.2.1 hand.2.1,
    if_neg fun hand => h.2.2 hand.2.1, if_pos ⟨by simp, hm, hc1, hc2, hc3⟩]
  rfl

/-- Consuming one valid cluster at the head of the input. -/
theorem countUTF8_cons_valid (c rest : List Nat) (hc : validCluster c) :
    CountUTF8 (c ++ rest) = (CountUTF8 rest).map fun cs => c :: cs := by
  match c, hc with
  | [b0], ⟨hb, hm⟩ =>
    exact countUTF8_cons1 b0 rest hm
  | [b0, b1], ⟨hb0, hb1, hm, hc1⟩ =>
    exact countUTF8_cons2 b0 b1 rest hb0 hm hc1
  | [b0, b1, b2], ⟨hb0, hb1, hb2, hm, hc1, hc2⟩ =>
    exact countUTF8_cons3 b0 b1 b2 rest hb0 hm hc1 hc2
  | [b0, b1, b2, b3], ⟨hb0, hb1, hb2, hb3, hm, hc1, hc2, hc3⟩ =>
    exact countUTF8_cons4 b0 b1 b2 b3 rest hb0 hm hc1 hc2 hc3

/-- Length of a valid cluster equals the class of its lead byte. -/
theorem validCluster_length (c : List Nat) (hc : validCluster c) :
    c.length = leadClass (c.headD 0) := by
  match c, hc with
  | [b0], ⟨hb, hm⟩ => simp [leadClass, hm]
  | [b0, b1], ⟨hb0, hb1, hm, _⟩ =>
    have h := (leadMasks b0 hb0).1 hm
    simp [leadClass, h, hm]
  | [b0, b1, b2], ⟨hb0, _, _, hm, _, _⟩ =>
    have h := (leadMasks b0 hb0).2.1 hm
    simp [leadClass, h.1, h.2, hm]
  | [b0, b1, b2, b3], ⟨hb0, _, _, _, hm, _, _, _⟩ =>
    have h := (leadMasks b0 hb0).2.2 hm
    simp [leadClass, h.1, h.2.1, h.2.2, hm]

/-- C5: for every byte string composed only of well-formed UTF-8 sequences
of one to four bytes, `CountUTF8` succeeds, the returned clusters
concatenate back to the original byte string in order, and each cluster's
byte length is the one determined by its lead byte's UTF-8 class. -/
theorem c5_segmentation (s : List Nat) (h : WellFormedUTF8 s) :
    ∃ cs, CountUTF8 s = some cs ∧ cs.flatten = s ∧
      ∀ c ∈ cs, c.length = leadClass (c.headD 0) := by
  induction h with
  | nil => exact ⟨[], by simp [CountUTF8], by simp, by simp⟩
  | @cons c rest hc hw ih =>
    obtain ⟨cs, h1, h2, h3⟩ := ih
    refine ⟨c :: cs, ?_, ?_, ?_⟩
    · rw [countUTF8_cons_valid c rest hc, h1]
      rfl
    · simp [h2]
    · intro x hx
      rcases List.mem_cons.mp hx with hx | hx
      · subst hx
        exact validCluster_length _ hc
      · exact h3 x hx

/-- C5 witness: the byte string of one 1-byte, one 2-byte, one 3-byte and
one 4-byte character. -/
theorem c5_segmentation_witness :
    ∃ cs, CountUTF8 [0x61, 0xC3, 0xA9, 0xE2, 0x82, 0xAC, 0xF0, 0x9F, 0x98, 0x80] = some cs ∧
      cs.flatten = [0x61, 0xC3, 0xA9, 0xE2, 0x82, 0xAC, 0xF0, 0x9F, 0x98, 0x80] ∧
      ∀ c ∈ cs, c.length = leadClass (c.headD 0) :=
  c5_segmentation _
    (@WellFormedUTF8.cons [0x61] _ ⟨by decide, by decide⟩
      (@WellFormedUTF8.cons [0xC3, 0xA9] _ ⟨by decide, by decide, by decide, by decide⟩
        (@WellFormedUTF8.cons [0xE2, 0x82, 0xAC] _
          ⟨by decide, by decide, by decide, by decide, by decide, by decide⟩
          (@WellFormedUTF8.cons [0xF0, 0x9F, 0x98, 0x80] _
            ⟨by decide, by decide, by decide, by decide, by decide, by decide, by decide, by decide⟩
            WellFormedUTF8.nil))))

/-- Common-leading-run length of a sequence against an extension of itself. -/
theorem commonPrefixLen_of_leading (A B : List String) (h : A <+: B) :
    commonPrefixLen A B = A.length := by
  induction A generalizing B with
  | nil => rfl
  | cons a as ih =>
    obtain ⟨t, ht⟩ := h
    subst ht
    simp [commonPrefixLen, ih (as ++ t) ⟨t, rfl⟩]

/-- Counting erase actions over a replicated erase block. -/
theorem countP_replicate_erase (n : Nat) :
    (List.replicate n RAction.erase).countP isEraseA = n := by
  induction n with
  | zero => rfl
  | succ n ih => simp [List.replicate, List.countP_cons, ih, isEraseA]

/-- Print actions contain no erase. -/
theorem countP_map_print (l : List String) :
    (l.map RAction.print).countP isEraseA = 0 := by
  induction l with
  | nil => rfl
  | cons a l ih => simp [List.countP_cons, ih, isEraseA]

/-- Erase blocks print nothing. -/
theorem printsOf_replicate_erase (n : Nat) :
    printsOf (List.replicate n RAction.erase) = [] := by
  induction n with
  | zero => rfl
  | succ n ih => simp [printsOf, List.replicate] at ih ⊢

/-- Printing a cluster list prints exactly that list. -/
theorem printsOf_map_print (l : List String) :
    printsOf (l.map RAction.print) = l := by
  induction l with
  | nil => rfl
  | cons a l ih => simpa [printsOf] using ih

/-- Printed clusters distribute over action-list concatenation. -/
theorem printsOf_append (l1 l2 : List RAction) :
    printsOf (l1 ++ l2) = printsOf l1 ++ printsOf l2 := by
  simp [printsOf]

/-- Sequences whose first clusters differ share no leading run. -/
theorem commonPrefixLen_zero_of_head_ne (A B : List String)
    (h : ∀ x, A.head? = some x → ¬ B.head? = some x) :
    commonPrefixLen A B = 0 := by
  match A, B with
  | [], _ => rfl
  | _ :: _, [] => rfl
  | a :: as, b :: bs =>
    have hne : ¬ a = b := fun he => h a rfl (by rw [he]; rfl)
    simp [commonPrefixLen, hne]

/-- C6: one redraw step emits exactly `len(A) - k` erase actions followed
by the clusters `B[k], B[k+1], ...` in order, where `k` is the length of
the longest common leading run of previous sequence `A` and current
sequence `B`; when `A` is a prefix of `B` it emits zero erase actions and
exactly `len(B) - len(A)` print actions, and when `A` and `B` share no
common prefix it emits `len(A)` erase actions and prints `B` in full. -/
theorem c6_redraw (A B : List String) :
    redrawStep A B =
      List.replicate (A.length - commonPrefixLen A B) RAction.erase ++
        (B.drop (commonPrefixLen A B)).map RAction.print ∧
    (redrawStep A B).countP isEraseA = A.length - commonPrefixLen A B ∧
    printsOf (redrawStep A B) = B.drop (commonPrefixLen A B) ∧
    (A <+: B →
      (redrawStep A B).countP isEraseA = 0 ∧
      redrawStep A B = (B.drop A.length).map RAction.print ∧
      (redrawStep A B).length = B.length - A.length) ∧
    ((∀ x, A.head? = some x → ¬ B.head? = some x) →
      (redrawStep A B).countP isEraseA = A.length ∧ printsOf (redrawStep A B) = B) := by
  have hbase : (redrawStep A B).countP isEraseA = A.length - commonPrefixLen A B := by
    rw [redrawStep, List.countP_append, countP_replicate_erase, countP_map_print, Nat.add_zero]
  have hprints : printsOf (redrawStep A B) = B.drop (commonPrefixLen A B) := by
    rw [redrawStep, printsOf_append, printsOf_replicate_erase, printsOf_map_print,
      List.nil_append]
  refine ⟨rfl, hbase, hprints, ?_, ?_⟩
  · intro hpre
    have hk := commonPrefixLen_of_leading A B hpre
    refine ⟨by simp [hbase, hk], ?_, ?_⟩
    · simp [redrawStep, hk]
    · have hAB : A.length ≤ B.length := hpre.length_le
      simp [redrawStep, hk, List.length_drop]
  · intro hne
    have hk := commonPrefixLen_zero_of_head_ne A B hne
    exact ⟨by simp [hbase, hk], by simp [hprints, hk]⟩

/-- C6 witness: a pure extension redraw and a fully differing redraw. -/
theorem c6_redraw_witness :
    redrawStep ["a"] ["a", "b"] = [RAction.print "b"] ∧
    redrawStep ["x"] ["y"] = [RAction.erase, RAction.print "y"] ∧
    (redrawStep ["x"] ["y"]).countP isEraseA = 1 ∧
    printsOf (redrawStep ["x"] ["y"]) = ["y"] := by
  have h1 := (c6_redraw ["a"] ["a", "b"]).2.2.2.1 ⟨["b"], rfl⟩
  have h2 := (c6_redraw ["x"] ["y"]).2.2.2.2 (fun x hx hy => by
    simp at hx hy
    rw [← hx] at hy
    exact absurd hy (by decide))
  exact ⟨by rw [h1.2.1]; rfl, by rfl, h2.1, h2.2⟩

/-- Searching a concatenation finds in the left part first. -/
theorem find?_append_match (l1 l2 : List String) (p : String → Bool) :
    (l1 ++ l2).find? p =
      match l1.find? p with
      | some x => some x
      | none => l2.find? p := by
  induction l1 with
  | nil => simp
  | cons a l ih =>
    by_cases h : p a
    · simp [List.find?_cons_of_pos, h]
    · simp only [List.cons_append, List.find?_cons_of_neg _ h, ih]

/-- One probe succeeds exactly when the path both exists and names a
regular file. -/
theorem probeOne_eq_hit (fs : FS) (path : String) :
    probeOne fs path = if probeHit fs path then some path else none := by
  by_cases h1 : path ∈ fs.present <;> by_cases h2 : path ∈ fs.regular <;>
    simp [probeOne, probeHit, h1, h2]

/-- The suffix loop searches the mapped probe list in order. -/
theorem findInSuffixes_eq (fs : FS) (dir name : String) (suffixes : List String) :
    findInSuffixes fs dir name suffixes =
      (suffixes.map fun suffix => dir ++ "/" ++ name ++ suffix).find? (probeHit fs) := by
  induction suffixes with
  | nil => rfl
  | cons suf sufs ih =>
    rw [findInSuffixes, probeOne_eq_hit]
    by_cases h : probeHit fs (dir ++ "/" ++ name ++ suf)
    · simp [h, List.find?_cons_of_pos]
    · simp [h, List.find?_cons_of_neg _ h, ih]

/-- The name loop searches its flattened probe list in order. -/
theorem findInNames_eq (fs : FS) (dir : String) (names suffixes : List String) :
    findInNames fs dir names suffixes =
      (names.flatMap fun name => suffixes.map fun suffix =>
        dir ++ "/" ++ name ++ suffix).find? (probeHit fs) := by
  induction names with
  | nil => rfl
  | cons n ns ih =>
    rw [findInNames, findInSuffixes_eq, List.flatMap_cons, find?_append_match]
    cases h : (suffixes.map fun suffix => dir ++ "/" ++ n ++ suffix).find? (probeHit fs) with
    | some x => rfl
    | none => exact ih

/-- `FindFile` searches the full Cartesian probe list in order. -/
theorem FindFile_eq (fs : FS) (search_paths names suffixes : List String) :
    FindFile fs search_paths names suffixes =
      (specProbeOrder search_paths names suffixes).find? (probeHit fs) := by
  induction search_paths with
  | nil => rfl
  | cons d ds ih =>
    rw [FindFile, findInNames_eq, specProbeOrder, List.flatMap_cons, find?_append_match]
    cases h : ((names.flatMap fun name => suffixes.map fun suffix =>
        d ++ "/" ++ name ++ suffix).find? (probeHit fs)) with
    | some x => rfl
    | none => exact ih

/-- C7: `FindFile` probes the Cartesian product of search directories, base
names and suffixes with directories as the outermost loop and suffixes
innermost, returning the first probed path that exists and names a regular
file or nothing when the product is exhausted; on the claim's concrete
inputs the probe order is exactly the eight listed paths. -/
theorem c7_probe_order :
    (∀ (fs : FS) (search_paths names suffixes : List String),
      FindFile fs search_paths names suffixes =
        (specProbeOrder search_paths names suffixes).find? (probeHit fs)) ∧
    specProbeOrder ["d1", "d2"] ["a", "b"] [".x", ".y"] =
      ["d1/a.x", "d1/a.y", "d1/b.x", "d1/b.y", "d2/a.x", "d2/a.y", "d2/b.x", "d2/b.y"] :=
  ⟨FindFile_eq, rfl⟩

/-- First element left by `dropWhile` fails the predicate. -/
theorem dropWhile_head_false (p : Char → Bool) (l : List Char) (h : Char) (t : List Char)
    (he : l.dropWhile p = h :: t) : p h = false := by
  induction l with
  | nil => simp [List.dropWhile] at he
  | cons a l ih =>
    rw [List.dropWhile_cons] at he
    by_cases hp : p a
    · simp [hp] at he
      exact ih he
    · simp [hp] at he
      rw [← he.1]
      simpa using hp

/-- On a reversed character list containing a slash, ending in `/params`
is the same as the segment before the first reversed slash being `params`. -/
theorem revTake7_iff (r : List Char) (hmem : '/' ∈ r) :
    r.take 7 = ['s', 'm', 'a', 'r', 'a', 'p', '/'] ↔
      r.takeWhile (fun c => c != '/') = ['s', 'm', 'a', 'r', 'a', 'p'] := by
  constructor
  · intro h
    have hr : r = ['s', 'm', 'a', 'r', 'a', 'p', '/'] ++ r.drop 7 := by
      rw [← h, List.take_append_drop]
    rw [hr]
    rfl
  · intro h
    have hsplit := List.takeWhile_append_dropWhile (fun c => c != '/') r
    rcases hd : r.dropWhile (fun c => c != '/') with _ | ⟨h0, t⟩
    · exfalso
      rw [hd, List.append_nil, h] at hsplit
      rw [← hsplit] at hmem
      exact absurd hmem (by decide)
    · have h0eq : h0 = '/' := by
        have hf := dropWhile_head_false _ _ _ _ hd
        simpa using hf
      have hr : r = ['s', 'm', 'a', 'r', 'a', 'p'] ++ '/' :: t := by
        rw [← hsplit, hd, h, h0eq]
      rw [hr]
      rfl

/-- For a path containing a slash, the source's last-seven-characters test
agrees with the final path component being `params`. -/
theorem endsWithParams_iff_lastComponent (mp : String) (hmem : '/' ∈ mp.data) :
    endsWithParams mp ↔ lastComponent mp = "params" := by
  have hrev : '/' ∈ mp.data.reverse := List.mem_reverse.mpr hmem
  unfold endsWithParams lastComponent
  rw [revTake7_iff mp.data.reverse hrev]
  constructor
  · intro h
    rw [h]
    rfl
  · intro h
    have hd : ((mp.data.reverse.takeWhile fun c => c != '/').reverse) = "params".data := by
      have := congrArg String.data h
      simpa using this
    have : mp.data.reverse.takeWhile (fun c => c != '/') = "params".data.reverse := by
      rw [← hd, List.reverse_reverse]
    simpa using this

/-- C8: once the config search has selected `local_id` with model path
`mp`, the library step of `f_search_model_path` is exactly a `FindFile`
over the single directory given by `specLibDir` (the model path's parent
when `mp`'s final component is literally `params`, otherwise that parent
with `/lib` appended), with base-name candidates `{local_id}-{device}` and
`{local_id}-{device}{arch-suffix}` and the platform library suffixes,
followed by the params search in `mp` itself. -/
theorem c8_library_step (cfg : LocatorConfig) (fs : FS) (cands : List String)
    (config_path local_id : String)
    (hsel : configSearchLoop cfg fs cands = some (config_path, local_id))
    (hslash : '/' ∈ (parentPath config_path).data)
    (hlen : 7 ≤ (parentPath config_path).length) :
    f_search_model_path cfg fs cands =
      match FindFile fs [specLibDir (parentPath config_path)]
          [local_id ++ "-" ++ cfg.device_name,
           local_id ++ "-" ++ cfg.device_name ++ cfg.arch_suffix]
          cfg.lib_suffixes with
      | none => Except.error 1
      | some lib_path =>
        match FindFile fs [parentPath config_path] ["ndarray-cache"] [".json"] with
        | none => Except.error 1
        | some params_json =>
          Except.ok ⟨config_path, lib_path, parentPath config_path, parentPath params_json⟩ := by
  unfold f_search_model_path
  rw [hsel]
  simp only [if_pos hlen]
  rw [specLibDir, if_congr (endsWithParams_iff_lastComponent _ hslash) rfl rfl]

/-- C8 witness: the concrete `dist/foo-q4f16_0` layout, whose model path
ends in `params`, so the library is searched in the params directory's
parent. -/
theorem c8_library_step_witness :
    f_search_model_path cfgC2 fsC2Moved ["foo-q4f16_0"] =
      match FindFile fsC2Moved
          [specLibDir (parentPath "dist/foo-q4f16_0/params/mlc-chat-config.json")]
          ["foo-q4f16_0" ++ "-" ++ cfgC2.device_name,
           "foo-q4f16_0" ++ "-" ++ cfgC2.device_name ++ cfgC2.arch_suffix]
          cfgC2.lib_suffixes with
      | none => Except.error 1
      | some lib_path =>
        match FindFile fsC2Moved [parentPath "dist/foo-q4f16_0/params/mlc-chat-config.json"]
            ["ndarray-cache"] [".json"] with
        | none => Except.error 1
        | some params_json =>
          Except.ok ⟨"dist/foo-q4f16_0/params/mlc-chat-config.json", lib_path,
            parentPath "dist/foo-q4f16_0/params/mlc-chat-config.json",
            parentPath params_json⟩ :=
  c8_library_step cfgC2 fsC2Moved ["foo-q4f16_0"]
    "dist/foo-q4f16_0/params/mlc-chat-config.json" "foo-q4f16_0"
    (by rfl) (by decide) (by decide)

/-- C2 counterexample: with exactly the claim's three files present
(config and parameter cache under `dist/foo-q4f16_0/params`, library under
`dist/foo-q4f16_0/lib`), resolution fails with exit code 1: because the
model path ends in `params`, the library is searched in `dist/foo-q4f16_0`
itself, not in its `lib` subdirectory, so no library is found. -/
theorem c2_counterexample :
    f_search_model_path cfgC2 fsC2 ["foo-q4f16_0"] = Except.error 1 := by rfl

/-- C2 (amended): with the library at
`dist/foo-q4f16_0/foo-q4f16_0-cuda.so` — directly in the params
directory's parent, where the code actually searches — resolution succeeds
and returns exactly the config path
`dist/foo-q4f16_0/params/mlc-chat-config.json`, that library path, and the
parameter directory `dist/foo-q4f16_0/params`. -/
theorem c2_resolution :
    f_search_model_path cfgC2 fsC2Moved ["foo-q4f16_0"] =
      Except.ok ⟨"dist/foo-q4f16_0/params/mlc-chat-config.json",
                 "dist/foo-q4f16_0/foo-q4f16_0-cuda.so",
                 "dist/foo-q4f16_0/params",
                 "dist/foo-q4f16_0/params"⟩ := by rfl

/-- C4 counterexample: the claim's enumerated backend set includes `cpu`,
but `GetDevice "cpu" 0` takes the fatal branch (modelled as `none`)
instead of constructing a CPU descriptor. -/
theorem c4_counterexample : GetDevice "cpu" 0 = none := by rfl

/-- C4 (amended): each of `cuda`, `metal`, `vulkan`, `opencl` resolves to
a descriptor with that backend kind and the given ordinal, and every name
outside this four-element set — including `cpu` — fails fatally. -/
theorem c4_device_resolution (device_id : Int) (name : String)
    (h1 : name ≠ "cuda") (h2 : name ≠ "metal") (h3 : name ≠ "vulkan") (h4 : name ≠ "opencl") :
    GetDevice "cuda" device_id = some ⟨DLDeviceType.kDLCUDA, device_id⟩ ∧
    GetDevice "metal" device_id = some ⟨DLDeviceType.kDLMetal, device_id⟩ ∧
    GetDevice "vulkan" device_id = some ⟨DLDeviceType.kDLVulkan, device_id⟩ ∧
    GetDevice "opencl" device_id = some ⟨DLDeviceType.kDLOpenCL, device_id⟩ ∧
    GetDevice name device_id = none := by
  refine ⟨rfl, rfl, rfl, rfl, ?_⟩
  simp [GetDevice, h1, h2, h3, h4]

/-- C4 witness at ordinal 3 with the unrecognized name `cpu`. -/
theorem c4_device_resolution_witness :
    GetDevice "cuda" 3 = some ⟨DLDeviceType.kDLCUDA, 3⟩ ∧
    GetDevice "metal" 3 = some ⟨DLDeviceType.kDLMetal, 3⟩ ∧
    GetDevice "vulkan" 3 = some ⟨DLDeviceType.kDLVulkan, 3⟩ ∧
    GetDevice "opencl" 3 = some ⟨DLDeviceType.kDLOpenCL, 3⟩ ∧
    GetDevice "cpu" 3 = none :=
  c4_device_resolution 3 "cpu" (by decide) (by decide) (by decide) (by decide)

/-- C9: command classification compares the line against the literal
prefixes `/reset`, `/reload`, `/exit`, `/stats`, `/help` in that priority
with first match winning; every line matching none of them is a prompt
carrying the full line verbatim; `/reload foo-q4f16_0` yields a reload of
identifier `foo-q4f16_0` and `hello` yields the prompt `hello`. -/
theorem c9_classification :
    (∀ inp, substrTo inp 6 = "/reset" → classify inp = Command.reset) ∧
    (∀ inp, substrTo inp 6 ≠ "/reset" → substrTo inp 7 = "/reload" →
      classify inp = Command.reload (secondToken inp)) ∧
    (∀ inp, substrTo inp 6 ≠ "/reset" → substrTo inp 7 ≠ "/reload" →
      substrTo inp 5 = "/exit" → classify inp = Command.exitCmd) ∧
    (∀ inp, substrTo inp 6 ≠ "/reset" → substrTo inp 7 ≠ "/reload" →
      substrTo inp 5 ≠ "/exit" → substrTo inp 6 = "/stats" → classify inp = Command.stats) ∧
    (∀ inp, substrTo inp 6 ≠ "/reset" → substrTo inp 7 ≠ "/reload" →
      substrTo inp 5 ≠ "/exit" → substrTo inp 6 ≠ "/stats" → substrTo inp 5 = "/help" →
      classify inp = Command.help) ∧
    (∀ inp, substrTo inp 6 ≠ "/reset" → substrTo inp 7 ≠ "/reload" →
      substrTo inp 5 ≠ "/exit" → substrTo inp 6 ≠ "/stats" → substrTo inp 5 ≠ "/help" →
      classify inp = Command.prompt inp) ∧
    classify "/reload foo-q4f16_0" = Command.reload "foo-q4f16_0" ∧
    classify "hello" = Command.prompt "hello" := by
  refine ⟨?_, ?_, ?_, ?_, ?_, ?_, by rfl, by rfl⟩
  · intro inp h1
    simp [classify, h1]
  · intro inp h1 h2
    simp [classify, h1, h2]
  · intro inp h1 h2 h3
    simp [classify, h1, h2, h3]
  · intro inp h1 h2 h3 h4
    simp [classify, h1, h2, h3, h4]
  · intro inp h1 h2 h3 h4 h5
    simp [classify, h1, h2, h3, h4, h5]
  · intro inp h1 h2 h3 h4 h5
    simp [classify, h1, h2, h3, h4, h5]

/-- C9 witness: a plain line matching no special prefix is a prompt. -/
theorem c9_classification_witness : classify "hi there" = Command.prompt "hi there" :=
  c9_classification.2.2.2.2.2.1 "hi there"
    (by decide) (by decide) (by decide) (by decide) (by decide)

/-- C1 counterexample: with no artifacts on disk, the in-session command
`/reload foo-q4f16_0` fails resolution and the process exits with code 1
(the `exit(1)` inside `f_search_model_path`); the REPL does not continue
with its prior state. -/
theorem c1_counterexample :
    chatStep cfgC2 fsEmpty rolesAB chatS0 "/reload foo-q4f16_0" = StepResult.exitProcess 1 := by
  rfl

/-- C1 (amended): every in-session `/reload <id>` whose model resolution
fails with the locator's `exit(1)` terminates the whole process with exit
code 1; the session does not continue with its prior artifact set, engine
state or role names. -/
theorem c1_reload_failure_exits (cfg : LocatorConfig) (fs : FS)
    (roles : String → String → String × String) (s : ChatState) (inp local_id : String)
    (hc : classify inp = Command.reload local_id) (hne : local_id ≠ "")
    (hf : f_search_model_path cfg fs [local_id] = Except.error 1) :
    chatStep cfg fs roles s inp = StepResult.exitProcess 1 := by
  simp [chatStep, hc, hne, hf]

/-- C1 witness: a failing reload of `bar-q4f16_0` against the empty
filesystem. -/
theorem c1_reload_failure_exits_witness :
    chatStep cfgC2 fsEmpty rolesAB chatS0 "/reload bar-q4f16_0" = StepResult.exitProcess 1 :=
  c1_reload_failure_exits cfgC2 fsEmpty rolesAB chatS0 "/reload bar-q4f16_0" "bar-q4f16_0"
    (by rfl) (by decide) (by rfl)

/-- C3 counterexample: an argument-less `/reload` succeeds but does not
refresh the role names from the engine: the state keeps role0 `X` even
though the engine would report `A`. -/
theorem c3_counterexample :
    chatStep cfgC2 fsEmpty rolesAB chatS0 "/reload" = StepResult.next chatS0 ∧
    (rolesAB chatS0.executable chatS0.model_path).1 = "A" ∧ chatS0.role0 = "X" :=
  ⟨rfl, rfl, rfl⟩

/-- C3 (amended): role0 and role1 are refreshed from the engine on every
successful `/reload <id>`; an argument-less `/reload` re-initializes the
engine with the same artifact set but leaves role0 and role1 unchanged. -/
theorem c3_roles_refresh (cfg : LocatorConfig) (fs : FS)
    (roles : String → String → String × String) (s : ChatState) :
    (∀ inp local_id r, classify inp = Command.reload local_id → local_id ≠ "" →
      f_search_model_path cfg fs [local_id] = Except.ok r →
      chatStep cfg fs roles s inp = StepResult.next
        ⟨r.lib_path, r.model_path, (roles r.lib_path r.model_path).1,
         (roles r.lib_path r.model_path).2, (r.lib_path, r.model_path)⟩) ∧
    chatStep cfg fs roles s "/reload" =
      StepResult.next { s with engine_loaded := (s.executable, s.model_path) } := by
  constructor
  · intro inp local_id r hc hne hf
    simp [chatStep, hc, hne, hf]
  · rfl

/-- C3 witness: a successful `/reload bar-q4f16_0` refreshes both roles
from the engine model. -/
theorem c3_roles_refresh_witness :
    chatStep cfgC2 fsBar rolesAB chatS0 "/reload bar-q4f16_0" =
      StepResult.next ⟨"dist/bar-q4f16_0/bar-q4f16_0-cuda.so", "dist/bar-q4f16_0/params",
        "A", "B", ("dist/bar-q4f16_0/bar-q4f16_0-cuda.so", "dist/bar-q4f16_0/params")⟩ :=
  (c3_roles_refresh cfgC2 fsBar rolesAB chatS0).1 "/reload bar-q4f16_0" "bar-q4f16_0"
    ⟨"dist/bar-q4f16_0/params/mlc-chat-config.json", "dist/bar-q4f16_0/bar-q4f16_0-cuda.so",
     "dist/bar-q4f16_0/params", "dist/bar-q4f16_0/params"⟩
    (by rfl) (by decide) (by rfl)

/-- C10: after a successful `/reload <id>` that resolved identifier `id`
to artifact set `r`, the session state carries exactly `r`'s library and
model path, and a subsequent argument-less `/reload` re-initializes the
engine with that pair — the most recent successful resolution — not with
the artifact set resolved at startup. -/
theorem c10_reload_none_uses_latest (cfg : LocatorConfig) (fs : FS)
    (roles : String → String → String × String) (s0 s1 : ChatState) (inp local_id : String)
    (r : ResolvedModel)
    (hc : classify inp = Command.reload local_id) (hne : local_id ≠ "")
    (hf : f_search_model_path cfg fs [local_id] = Except.ok r)
    (hstep : chatStep cfg fs roles s0 inp = StepResult.next s1) :
    s1.executable = r.lib_path ∧ s1.model_path = r.model_path ∧
    chatStep cfg fs roles s1 "/reload" =
      StepResult.next { s1 with engine_loaded := (r.lib_path, r.model_path) } := by
  simp [chatStep, hc, hne, hf] at hstep
  have hx : s1.executable = r.lib_path := by rw [← hstep]
  have hm : s1.model_path = r.model_path := by rw [← hstep]
  refine ⟨hx, hm, ?_⟩
  show StepResult.next { s1 with engine_loaded := (s1.executable, s1.model_path) } = _
  rw [hx, hm]

/-- C10 witness: after reloading `bar-q4f16_0`, the argument-less reload
re-initializes the engine with the artifacts resolved for `bar-q4f16_0`. -/
theorem c10_reload_none_uses_latest_witness :
    let s1 : ChatState :=
      ⟨"dist/bar-q4f16_0/bar-q4f16_0-cuda.so", "dist/bar-q4f16_0/params", "A", "B",
       ("dist/bar-q4f16_0/bar-q4f16_0-cuda.so", "dist/bar-q4f16_0/params")⟩
    s1.executable = "dist/bar-q4f16_0/bar-q4f16_0-cuda.so" ∧
    s1.model_path = "dist/bar-q4f16_0/params" ∧
    chatStep cfgC2 fsBar rolesAB s1 "/reload" =
      StepResult.next { s1 with engine_loaded :=
        ("dist/bar-q4f16_0/bar-q4f16_0-cuda.so", "dist/bar-q4f16_0/params") } :=
  c10_reload_none_uses_latest cfgC2 fsBar rolesAB chatS0 _ "/reload bar-q4f16_0" "bar-q4f16_0"
    ⟨"dist/bar-q4f16_0/params/mlc-chat-config.json", "dist/bar-q4f16_0/bar-q4f16_0-cuda.so",
     "dist/bar-q4f16_0/params", "dist/bar-q4f16_0/params"⟩
    (by rfl) (by decide) (by rfl) (by rfl)
